import Mathlib

/-!
Shallow embedding of the raisegrade-resources OCR batch pipeline
(src/high_accuracy_ocr_pipeline.py.py, src/ocr.py, src/batch_extract.py).

Paths, extracted text and tokens are modelled as `List Char` (Python `str`
compares strings by code points, which is the lexicographic order on
`List Char`).  External collaborators (the OCR engine invoked through
`subprocess.run`, PyMuPDF page reading, python-docx, pyspellchecker) are
modelled at their interface boundary: an environment record supplies their
observable behaviour (exit codes, captured output, raised exceptions,
dictionary judgments), and the embedded functions are the repository's own
control flow over those observations.
-/

namespace OcrPipeline

/-- Observable behaviour of one `subprocess.run` invocation: either the
process exited with a code and captured stdout/stderr bytes (decoded to
strings), or the invocation itself raised an exception with a message. -/
inductive ProcResult where
  | exited (code : Int) (outS errS : String)
  | raised (msg : String)
deriving DecidableEq

/-- Embedding of `run_cmd(cmd_list)` from `high_accuracy_ocr_pipeline.py.py`
(lines 51-57; `ocr.py` lines 31-38 is identical): on a completed process it
returns `(returncode == 0, stdout + stderr)`; an exception during the
invocation is caught and returned as `(False, str(e))`. -/
def runCmd : ProcResult → Bool × String
  | ProcResult.exited code outS errS => (code == 0, outS ++ errS)
  | ProcResult.raised msg => (false, msg)

/-- One filesystem entry enumerated by `Path.rglob` under the input root:
its full path string and its `is_file()` flag. -/
structure Entry where
  path : List Char
  isFile : Bool
deriving DecidableEq

/-- The extension suffix `".pdf"` that marks a source document. -/
def pdfSuffix : List Char := ['.', 'p', 'd', 'f']

/-- The files kept by `root.rglob("*.pdf")` plus the `p.is_file()` filter
(`ocr.py` `find_pdfs`, line 74; `high_accuracy_ocr_pipeline.py.py` line 162):
regular files whose path ends in `.pdf`, in enumeration order. -/
def matchingPdfs (entries : List Entry) : List (List Char) :=
  (entries.filter (fun e => e.isFile && pdfSuffix.isSuffixOf e.path)).map Entry.path

/-- Embedding of `find_pdfs(root)` (`ocr.py` lines 72-74) and of the
discovery expression `sorted([p for p in root.rglob("*.pdf") if p.is_file()])`
in `high_accuracy_ocr_pipeline.py.py` line 162: the matching files sorted by
full path string. -/
def find_pdfs (entries : List Entry) : List (List Char) :=
  List.insertionSort (· ≤ ·) (matchingPdfs entries)

/-! ### Token classifier (`simple_spellcheck`) -/

/-- Character class of the tokenizer regex `[A-Za-zÀ-ÿ0-9\-\']` in
`high_accuracy_ocr_pipeline.py.py` line 92: ASCII letters, the Latin-1 range
U+00C0 to U+00FF, digits, hyphen and apostrophe. -/
def isWordChar (c : Char) : Bool :=
  (65 ≤ c.toNat && c.toNat ≤ 90) || (97 ≤ c.toNat && c.toNat ≤ 122) ||
  (192 ≤ c.toNat && c.toNat ≤ 255) || (48 ≤ c.toNat && c.toNat ≤ 57) ||
  c.toNat == 45 || c.toNat == 39

/-- ASCII digit, as matched by `\d` over this token alphabet. -/
def isDigitChar (c : Char) : Bool := 48 ≤ c.toNat && c.toNat ≤ 57

/-- ASCII letter, as matched by `[A-Za-z]`. -/
def isAsciiLetter (c : Char) : Bool :=
  (65 ≤ c.toNat && c.toNat ≤ 90) || (97 ≤ c.toNat && c.toNat ≤ 122)

/-- Accumulator pass of `re.findall(r"[A-Za-zÀ-ÿ0-9\-\']{2,}", text)`: the
regex scans the text and, being greedy, each match is a maximal run of
word-class characters; runs shorter than 2 characters are not matched.
`cur` is the current run, reversed. -/
def tokenizeAux : List Char → List Char → List (List Char)
  | [], cur => if 2 ≤ cur.length then [cur.reverse] else []
  | c :: rest, cur =>
    if isWordChar c then tokenizeAux rest (c :: cur)
    else (if 2 ≤ cur.length then [cur.reverse] else []) ++ tokenizeAux rest []

/-- Embedding of the tokenization step of `simple_spellcheck`
(`high_accuracy_ocr_pipeline.py.py` line 92). -/
def tokenize (text : List Char) : List (List Char) := tokenizeAux text []

/-- Test of `re.match(r'^\d+$', w)`: the whole token consists of digits
(and is nonempty, as `\d+` needs at least one digit). -/
def isPureNumeric (w : List Char) : Bool := !w.isEmpty && w.all isDigitChar

/-- Test of `re.search(r'\d', w)`. -/
def hasDigit (w : List Char) : Bool := w.any isDigitChar

/-- Test of `re.search(r'[A-Za-z]', w)`. -/
def hasAsciiLetter (w : List Char) : Bool := w.any isAsciiLetter

/-- Python `str.lower()` restricted to the token alphabet: ASCII upper-case
letters and the Latin-1 upper range U+00C0 to U+00DE (except the
multiplication sign U+00D7) map 32 code points up; everything else is
unchanged. -/
def lowerChar (c : Char) : Char :=
  if (65 ≤ c.toNat && c.toNat ≤ 90) ||
      (192 ≤ c.toNat && c.toNat ≤ 222 && c.toNat != 215) then
    Char.ofNat (c.toNat + 32)
  else c

/-- Lower-casing of a whole token, as pyspellchecker does in its default
case-insensitive mode both when loading words and when judging them. -/
def lowerWord (w : List Char) : List Char := w.map lowerChar

/-- Interface-level behaviour of the pyspellchecker backend used by
`simple_spellcheck` (an external collaborator, modelled at its boundary):

* `filenameAttr` — the value of the attribute access
  `spell.word_frequency.filename` at line 96; `none` means the attribute
  does not exist and the access raises `AttributeError` (this is what the
  installed library does: `WordFrequency` exposes no `filename` attribute,
  and with `language=None` no wordlist file is associated with the checker).
* `fileWords` — the words `load_text_file` would contribute for a given
  file name, were the attribute present.
* `shouldCheck` — pyspellchecker's internal predicate deciding whether a
  token is even eligible to be reported unknown (it skips one-letter tokens
  and tokens parseable as numbers).
* `suggestFn` — `spell.candidates(w)` as a ranked list, given the loaded
  dictionary. -/
structure SpellEnv where
  filenameAttr : Option String
  fileWords : String → List (List Char)
  shouldCheck : List Char → Bool
  suggestFn : List (List Char) → List Char → List (List Char)

/-- Dictionary seeding steps of `simple_spellcheck` (lines 93-99):
`SpellChecker(language=None)` starts empty; the `try` block attempts
`load_text_file(spell.word_frequency.filename)` and a raised exception is
swallowed by `except Exception: pass`, leaving the dictionary unchanged;
then `add_words(custom_words)` adds the caller's custom list.  Words are
stored lower-cased (default case-insensitive mode). -/
def buildDict (env : SpellEnv) (customWords : List (List Char)) : List (List Char) :=
  let d0 : List (List Char) := []
  let d1 := match env.filenameAttr with
    | none => d0
    | some fn => d0 ++ (env.fileWords fn).map lowerWord
  d1 ++ customWords.map lowerWord

/-- One line of the issues report: either a chemical-like token (written
with the manual-review marker and no suggestion list) or a token with its
ranked suggestion list. -/
inductive IssueEntry where
  | chem (w : List Char)
  | withSuggestions (w : List Char) (suggestions : List (List Char))
deriving DecidableEq

/-- The token a report entry is about. -/
def IssueEntry.word : IssueEntry → List Char
  | IssueEntry.chem w => w
  | IssueEntry.withSuggestions w _ => w

/-- The candidate set of `simple_spellcheck` (line 101): the tokenized
words with purely numeric tokens dropped, as a set (`set(...)` — modelled
by `dedup`). -/
def candidateTokens (text : List Char) : List (List Char) :=
  ((tokenize text).filter (fun w => !isPureNumeric w)).dedup

/-- The set `spell.unknown(candidates)` (line 102), per pyspellchecker's
case-insensitive semantics: candidates are lower-cased, tokens the backend
declines to check are skipped, tokens found in the dictionary are known,
and the result is a set of the remaining lower-cased tokens. -/
def unknownTokens (env : SpellEnv) (text : List Char) (customWords : List (List Char)) :
    List (List Char) :=
  (((candidateTokens text).map lowerWord).filter
    (fun w => env.shouldCheck w && !(buildDict env customWords).contains w)).dedup

/-- The report line written for one unknown token (lines 107-113): a token
containing both a digit and an ASCII letter is marked chemical-like and gets
no suggestions (`continue`); any other token gets `list(spell.candidates(w))[:5]`. -/
def classifyToken (env : SpellEnv) (dict : List (List Char)) (w : List Char) : IssueEntry :=
  if hasDigit w && hasAsciiLetter w then IssueEntry.chem w
  else IssueEntry.withSuggestions w ((env.suggestFn dict w).take 5)

/-- Embedding of `simple_spellcheck(txt_path, issues_out, custom_words)`
(`high_accuracy_ocr_pipeline.py.py` lines 89-114), returning the sequence of
report lines in the order written: `for w in sorted(unknown)`. -/
def simple_spellcheck (env : SpellEnv) (text : List Char) (customWords : List (List Char)) :
    List IssueEntry :=
  (List.insertionSort (· ≤ ·) (unknownTokens env text customWords)).map
    (classifyToken env (buildDict env customWords))

/-! ### Text extraction -/

/-- Everything written for one page by the loop body of
`extract_text_from_searchable` (lines 67-74): the page-delimiter line for
1-based page number `i`, then the page text, or the sentinel line when
`page.get_text()` returned the empty string, then a blank separator. -/
def pageChunk (i : Nat) (t : List Char) : List Char :=
  ("--- PAGE " ++ toString i ++ " ---\n").toList ++
    (if t = [] then "[NO TEXT ON PAGE]\n".toList else t) ++ "\n\n".toList

/-- One iteration of the write loop: append the current page's chunk to the
file contents so far and advance the 1-based page counter. -/
def extractStep (acc : List Char × Nat) (t : List Char) : List Char × Nat :=
  (acc.1 ++ ("--- PAGE " ++ toString acc.2 ++ " ---\n").toList ++
    (if t = [] then "[NO TEXT ON PAGE]\n".toList else t) ++ "\n\n".toList,
   acc.2 + 1)

/-- Embedding of `extract_text_from_searchable(searchable_pdf, out_txt)`
(lines 64-75): the contents of the single text file produced by iterating
`enumerate(doc, start=1)` over the page texts and writing header, content
(or sentinel) and separator per page. -/
def extract_text_from_searchable (pages : List (List Char)) : List Char :=
  (pages.foldl extractStep ([], 1)).1

/-- Specification-side rendering, written from the spec's words: each
page's content is preceded by a delimiter line carrying its 1-based page
number, and a page with no extractable text is rendered with the explicit
sentinel line.  To be compared with `extract_text_from_searchable`. -/
def pagesRendered : Nat → List (List Char) → List Char
  | _, [] => []
  | i, t :: rest => pageChunk i t ++ pagesRendered (i + 1) rest

/-- The whole rendered file per the spec, pages numbered from 1. -/
def extractSpec (pages : List (List Char)) : List Char := pagesRendered 1 pages

/-! ### OCR stage and the per-document pipeline -/

/-- Embedding of `OCRMYPDF_BASE_ARGS`
(`high_accuracy_ocr_pipeline.py.py` lines 32-42). -/
def OCRMYPDF_BASE_ARGS : List String :=
  ["ocrmypdf", "--force-ocr", "--deskew", "--remove-background", "--clean",
   "--clean-final", "--rotate-pages", "--image-dpi", "400", "-l", "eng"]

/-- The full command list built by `ocr_to_searchable` (line 60):
the base arguments followed by input and output paths. -/
def ocrToSearchableArgs (pdfPath searchablePath : String) : List String :=
  OCRMYPDF_BASE_ARGS ++ [pdfPath, searchablePath]

/-- Embedding of `ocr_to_searchable(pdf_path, searchable_path)` (lines
59-62), given the behaviour `proc` of external process invocation. -/
def ocr_to_searchable (proc : List String → ProcResult)
    (pdfPath searchablePath : String) : Bool × String :=
  runCmd (proc (ocrToSearchableArgs pdfPath searchablePath))

/-- Which of the four per-document artifacts exist on disk after the
pipeline ran for one document: `<stem>_searchable.pdf`, `<stem>.txt`,
`<stem>.docx`, `<stem>_issues.txt`. -/
structure Artifacts where
  searchable : Bool
  txt : Bool
  docx : Bool
  issues : Bool
deriving DecidableEq

/-- Per-document terminal state, reconstructed from the return value and
the logged lines of `process_pdf_file`: `failedHard stage diagnostic` for a
`return False` after an `[ERROR]` log of that stage, `success warnings` for
`return True` with one warning per `[WARN]` log of an optional stage. -/
inductive Outcome where
  | failedHard (stage diagnostic : String)
  | success (warnings : List (String × String))
deriving DecidableEq

/-- The stage adapters' observable behaviour for one document, at the
external-collaborator boundary:

* `proc` — behaviour of `subprocess.run` per command list;
* `pdfPath`, `searchablePath` — the input document and its
  `_searchable.pdf` target;
* `extractExc` — exception raised by PyMuPDF while opening/reading the
  searchable copy (`none` when extraction succeeds);
* `docxExc` — exception raised by python-docx (`none` on success);
* `spellExc` — exception raised inside the spellcheck stage
  (`none` on success). -/
structure DocEnv where
  proc : List String → ProcResult
  pdfPath : String
  searchablePath : String
  extractExc : Option String
  docxExc : Option String
  spellExc : Option String

/-- Embedding of `process_pdf_file(pdf_path, root, out_base, custom_words)`
(`high_accuracy_ocr_pipeline.py.py` lines 116-153): OCR first (a failure
returns `False` before any later file is touched), then text extraction
(a caught exception returns `False`; the searchable copy written by the
successful OCR stage is left in place), then the docx and spellcheck stages,
whose caught exceptions are logged as warnings while the function still
returns `True`. -/
def process_pdf_file (env : DocEnv) : Artifacts × Outcome :=
  let r := ocr_to_searchable env.proc env.pdfPath env.searchablePath
  if r.1 = false then
    (⟨false, false, false, false⟩, Outcome.failedHard "Normalizer" r.2)
  else
    match env.extractExc with
    | some e => (⟨true, false, false, false⟩, Outcome.failedHard "Extractor" e)
    | none =>
        let exporterWarnings := match env.docxExc with
          | some e => [("Exporter", e)]
          | none => ([] : List (String × String))
        let classifierWarnings := match env.spellExc with
          | some e => [("Classifier", e)]
          | none => ([] : List (String × String))
        (⟨true, true, env.docxExc.isNone, env.spellExc.isNone⟩,
         Outcome.success (exporterWarnings ++ classifierWarnings))

/-- The boolean `process_pdf_file` actually returns to the scheduler:
`False` on a hard failure, `True` otherwise (warnings included). -/
def outcomeBool : Outcome → Bool
  | Outcome.failedHard _ _ => false
  | Outcome.success _ => true

/-! ### Scheduler / batch aggregation (`main`, lines 155-185) -/

/-- What `fut.result()` yields for one worker inside the aggregation loop:
the worker's returned value, or the exception it raised (`Except.error`),
which the `except` clause at lines 175-177 converts to a failure. -/
def futResult : Except String (Artifacts × Outcome) → Bool
  | Except.ok r => outcomeBool r.2
  | Except.error _ => false

/-- One iteration of the aggregation loop (lines 171-181): bump the
success counter when the worker reported `True`, the failure counter
otherwise (including when `fut.result()` raised). -/
def tallyStep (acc : Nat × Nat) (r : Except String (Artifacts × Outcome)) : Nat × Nat :=
  if futResult r then (acc.1 + 1, acc.2) else (acc.1, acc.2 + 1)

/-- The `(successes, fails)` counters after draining all futures. -/
def tally (results : List (Except String (Artifacts × Outcome))) : Nat × Nat :=
  results.foldl tallyStep (0, 0)

/-- The batch report: one `(document, worker result)` pair per discovered
document — `main` submits exactly one future per element of `pdfs`
(line 170) and `as_completed` yields each submitted future exactly once. -/
def batchOutcomes (docs : List (List Char))
    (runDoc : List Char → Except String (Artifacts × Outcome)) :
    List (List Char × Except String (Artifacts × Outcome)) :=
  docs.map (fun d => (d, runDoc d))

/-- The final `(successes, fails)` pair printed at line 184. -/
def batchCounts (docs : List (List Char))
    (runDoc : List Char → Except String (Artifacts × Outcome)) : Nat × Nat :=
  tally ((batchOutcomes docs runDoc).map Prod.snd)

/-! ### Startup preconditions and exit codes -/

/-- Startup-relevant state of one run: whether the resolved input root
exists at all (`root.exists()`), whether what exists there is a directory,
whether all required external commands are on PATH, and the filesystem
tree under the root (what `rglob` would enumerate were the root an existing
directory). -/
structure RunEnv where
  rootExists : Bool
  rootIsDir : Bool
  toolsOk : Bool
  tree : List Entry

/-- What `root.rglob("*.pdf")` enumerates (`ocr.py` line 74,
`high_accuracy_ocr_pipeline.py.py` line 162): pathlib's selector first
tests `is_dir` and returns an empty iterator (not an error) for any
non-directory root — a missing root and a root that is a regular file
alike — so only an existing directory yields the tree's entries. -/
def rglobEntries (env : RunEnv) : List Entry :=
  if env.rootExists && env.rootIsDir then env.tree else []

/-- Exit code of `main()` in `ocr.py` (lines 76-109): line 80 tests only
`root.exists()` — a root that does not exist at all exits 1 (line 82)
before tools are checked or anything is scheduled, while a root existing
as a regular file passes the test; a missing required tool exits 1
(`check_tools`, line 29); otherwise the run completes and the process
exits 0 — both when no PDFs are found (early `return`, line 90; this is
where a non-directory root lands, since its enumeration is empty) and
after the batch loop, regardless of per-document failures. -/
def ocrMainExit (env : RunEnv) : Int :=
  if env.rootExists = false then 1
  else if env.toolsOk = false then 1
  else
    let pdfs := find_pdfs (rglobEntries env)
    if pdfs.isEmpty then 0 else 0

/-- Exit code of `main()` in `high_accuracy_ocr_pipeline.py.py` (lines
155-185): `check_tools()` exits 1 on a missing tool (line 49); the input
root is never tested at all — discovery over a missing or non-directory
root is just empty (`rglobEntries`), the function prints and returns, and
the process exits 0; a completed batch also exits 0 regardless of
per-document failures. -/
def highaccMainExit (env : RunEnv) : Int :=
  if env.toolsOk = false then 1
  else
    let pdfs := find_pdfs (rglobEntries env)
    if pdfs.isEmpty then 0 else 0

/-! ### The `ocr.py` per-document pipeline -/

/-- The ocrmypdf command list built inline in `process_one` of `ocr.py`
(lines 52-58): only `--deskew` and `--force-ocr` precede the input and
output paths — none of the background-removal, clean, rotate-correction,
resolution or language options of the high-accuracy script. -/
def ocrPyArgs (pdfPath searchablePath : String) : List String :=
  ["ocrmypdf", "--deskew", "--force-ocr", pdfPath, searchablePath]

/-- The pdftotext command list of step 2 of `process_one`
(`ocr.py` line 64). -/
def pdftotextArgs (searchablePath txtPath : String) : List String :=
  ["pdftotext", searchablePath, txtPath]

/-- External-process behaviour and paths for one document of `ocr.py`. -/
structure OcrPyEnv where
  proc : List String → ProcResult
  pdfPath : String
  searchablePath : String
  txtPath : String

/-- Embedding of `process_one(pdf_path, root, out_root)` (`ocr.py` lines
40-70): ocrmypdf runs first and a non-zero exit returns `False` right after
logging the captured combined output; then pdftotext, with the same
handling; `True` otherwise. -/
def process_one (env : OcrPyEnv) : Outcome :=
  let r := runCmd (env.proc (ocrPyArgs env.pdfPath env.searchablePath))
  if r.1 = false then Outcome.failedHard "Normalizer" r.2
  else
    let r2 := runCmd (env.proc (pdftotextArgs env.searchablePath env.txtPath))
    if r2.1 = false then Outcome.failedHard "Extractor" r2.2
    else Outcome.success []

/-! ### Concrete instances used by counterexamples and witnesses -/

/-- The pyspellchecker backend as actually installed: `WordFrequency` has
no `filename` attribute (so the English-wordlist load at line 96 raises and
is swallowed), and no suggestions are relevant here. -/
def pyspellEnv : SpellEnv :=
  ⟨none, fun _ => [], fun _ => true, fun _ _ => []⟩

/-- A run whose input root does not exist while every required tool is
installed and the (inaccessible) tree would hold one PDF. -/
def missingRootEnv : RunEnv :=
  ⟨false, false, true, [⟨['a', '.', 'p', 'd', 'f'], true⟩]⟩

/-- A run whose input root exists but is a regular file, not a directory,
with every required tool installed. -/
def fileRootEnv : RunEnv :=
  ⟨true, false, true, [⟨['a', '.', 'p', 'd', 'f'], true⟩]⟩

/-- A document environment for `ocr.py` whose ocrmypdf invocation
exits 1. -/
def ocrPyEnvFail : OcrPyEnv :=
  ⟨fun _ => ProcResult.exited 1 "engine failed" "", "in.pdf",
   "in_searchable.pdf", "in.txt"⟩

/-- A worker-behaviour table with one worker raising and one succeeding. -/
def runDocW : List Char → Except String (Artifacts × Outcome) :=
  fun d => if d = ['a'] then Except.error "boom"
    else Except.ok (⟨true, true, true, true⟩, Outcome.success [])

/-- The two documents driving `runDocW`. -/
def docsW : List (List Char) := [['a'], ['b']]

/-- A document environment whose OCR invocation exits 1. -/
def docEnvOcrFail : DocEnv :=
  ⟨fun _ => ProcResult.exited 1 "ocr says no" "", "in.pdf", "in_searchable.pdf",
   none, none, none⟩

/-- A document environment whose OCR succeeds but extraction raises. -/
def docEnvExtractFail : DocEnv :=
  ⟨fun _ => ProcResult.exited 0 "fine" "", "in.pdf", "in_searchable.pdf",
   some "bad xref", none, none⟩

/-- A document environment where only the docx export raises. -/
def docEnvDocxFail : DocEnv :=
  ⟨fun _ => ProcResult.exited 0 "fine" "", "in.pdf", "in_searchable.pdf",
   none, some "docx blew up", none⟩

/-! ## Helper lemmas -/

/-- Every token the regex scan emits while carrying a run `cur` of
word-class characters has length at least 2 and consists of word-class
characters only. -/
theorem tokenizeAux_sound (text : List Char) :
    ∀ (cur : List Char), (∀ c ∈ cur, isWordChar c = true) →
      ∀ w ∈ tokenizeAux text cur, 2 ≤ w.length ∧ ∀ c ∈ w, isWordChar c = true := by
  induction text with
  | nil =>
    intro cur hcur w hw
    simp only [tokenizeAux] at hw
    split at hw
    · simp only [List.mem_singleton] at hw
      subst hw
      refine ⟨by simpa using ‹2 ≤ cur.length›, ?_⟩
      intro c hc
      exact hcur c (List.mem_reverse.mp hc)
    · simp at hw
  | cons c rest ih =>
    intro cur hcur w hw
    simp only [tokenizeAux] at hw
    split at hw
    · exact ih (c :: cur) (by
        intro x hx
        rcases List.mem_cons.mp hx with h | h
        · subst h; assumption
        · exact hcur x h) w hw
    · rcases List.mem_append.mp hw with h | h
      · split at h
        · simp only [List.mem_singleton] at h
          subst h
          refine ⟨by simpa using ‹2 ≤ cur.length›, ?_⟩
          intro x hx
          exact hcur x (List.mem_reverse.mp hx)
        · simp at h
      · exact ih [] (by simp) w h

/-- A classified report entry is about the token it was built from. -/
theorem classifyToken_word (env : SpellEnv) (dict : List (List Char)) (w : List Char) :
    (classifyToken env dict w).word = w := by
  unfold classifyToken
  split <;> rfl

/-- The tokens of the report lines, in order, are exactly the sorted
unknown tokens. -/
theorem report_words_eq (env : SpellEnv) (text : List Char) (customWords : List (List Char)) :
    (simple_spellcheck env text customWords).map IssueEntry.word =
      List.insertionSort (· ≤ ·) (unknownTokens env text customWords) := by
  unfold simple_spellcheck
  rw [List.map_map]
  have h : (IssueEntry.word ∘ classifyToken env (buildDict env customWords)) = id := by
    funext w
    exact classifyToken_word env (buildDict env customWords) w
  rw [h, List.map_id]

/-- Loop invariant of the success/failure counters: after folding any list
of worker results the two counters sum to the starting sum plus the number
of results folded. -/
theorem tally_sum (rs : List (Except String (Artifacts × Outcome))) :
    ∀ a b : Nat,
      (rs.foldl tallyStep (a, b)).1 + (rs.foldl tallyStep (a, b)).2 = a + b + rs.length := by
  induction rs with
  | nil => intro a b; simp [List.length_nil]
  | cons r rest ih =>
    intro a b
    simp only [List.foldl_cons, tallyStep, List.length_cons]
    split
    · rw [ih]; omega
    · rw [ih]; omega

/-- The extraction write loop, started with file contents `acc` and page
counter `i`, appends exactly the rendered chunks of the remaining pages
numbered from `i`. -/
theorem extract_go (pages : List (List Char)) :
    ∀ (acc : List Char) (i : Nat),
      (pages.foldl extractStep (acc, i)).1 = acc ++ pagesRendered i pages := by
  induction pages with
  | nil => intro acc i; simp [pagesRendered]
  | cons t rest ih =>
    intro acc i
    simp only [List.foldl_cons, extractStep, pagesRendered, pageChunk]
    rw [ih]
    simp [List.append_assoc]

/-! ## Claims -/

/-- Claim C1: the batch report holds exactly one outcome per discovered
document, the final counters satisfy `succeeded + failed = total
discovered`, and a worker that raises an unexpected exception is converted
into a failed outcome for its document rather than dropped. -/
theorem batch_report_complete (docs : List (List Char))
    (runDoc : List Char → Except String (Artifacts × Outcome)) :
    ((batchOutcomes docs runDoc).map Prod.fst = docs) ∧
    (batchOutcomes docs runDoc).length = docs.length ∧
    (batchCounts docs runDoc).1 + (batchCounts docs runDoc).2 = docs.length ∧
    (∀ d msg, runDoc d = Except.error msg → futResult (runDoc d) = false) := by
  refine ⟨?_, ?_, ?_, ?_⟩
  · unfold batchOutcomes
    rw [List.map_map]
    exact List.map_id docs
  · unfold batchOutcomes
    exact List.length_map docs _
  · unfold batchCounts tally
    rw [tally_sum]
    unfold batchOutcomes
    rw [List.length_map, List.length_map]
    omega
  · intro d msg h
    rw [h]
    rfl

/-- Witness for C1 at a concrete two-document batch where the worker for
the first document raises. -/
theorem batch_report_complete_witness :
    futResult (runDocW ['a']) = false ∧
      (batchCounts docsW runDocW).1 + (batchCounts docsW runDocW).2 = docsW.length :=
  ⟨(batch_report_complete docsW runDocW).2.2.2 ['a'] "boom" rfl,
   (batch_report_complete docsW runDocW).2.2.1⟩

/-- Claim C2: a Normalizer failure leaves no `.txt`, `.docx` or
`_issues.txt` artifact and yields a hard failure; an Extractor failure
leaves no downstream (`.docx`, `_issues.txt`) artifact while the
searchable copy written by the earlier successful stage remains on disk. -/
theorem hard_failure_short_circuit (env : DocEnv) :
    ((ocr_to_searchable env.proc env.pdfPath env.searchablePath).1 = false →
      (process_pdf_file env).1 = ⟨false, false, false, false⟩ ∧
      (process_pdf_file env).2 = Outcome.failedHard "Normalizer"
        (ocr_to_searchable env.proc env.pdfPath env.searchablePath).2) ∧
    (∀ e, (ocr_to_searchable env.proc env.pdfPath env.searchablePath).1 = true →
      env.extractExc = some e →
      (process_pdf_file env).1 = ⟨true, false, false, false⟩ ∧
      (process_pdf_file env).2 = Outcome.failedHard "Extractor" e) := by
  constructor
  · intro h
    simp [process_pdf_file, h]
  · intro e hocr hext
    simp [process_pdf_file, hocr, hext]

/-- Witness for C2 at two concrete document environments: one whose OCR
invocation exits 1, one whose extraction raises. -/
theorem hard_failure_short_circuit_witness :
    ((process_pdf_file docEnvOcrFail).1 = ⟨false, false, false, false⟩ ∧
      (process_pdf_file docEnvOcrFail).2 = Outcome.failedHard "Normalizer"
        (ocr_to_searchable docEnvOcrFail.proc docEnvOcrFail.pdfPath
          docEnvOcrFail.searchablePath).2) ∧
    ((process_pdf_file docEnvExtractFail).1 = ⟨true, false, false, false⟩ ∧
      (process_pdf_file docEnvExtractFail).2 = Outcome.failedHard "Extractor" "bad xref") :=
  ⟨(hard_failure_short_circuit docEnvOcrFail).1 rfl,
   (hard_failure_short_circuit docEnvExtractFail).2 "bad xref" rfl rfl⟩

/-- Claim C3 counterexample: two runs whose input root is not an existing
directory and that still complete with exit code 0, with every required
tool installed. `high_accuracy_ocr_pipeline.py.py` has no input-root check
at all, so a missing root falls through to the empty-discovery early
return; `ocr.py` tests only `root.exists()`, so a root existing as a
regular file passes its check and likewise lands in the empty-discovery
early return. Both contradict the claimed non-zero exit. -/
theorem non_directory_root_exits_zero :
    (missingRootEnv.rootExists = false ∧ missingRootEnv.toolsOk = true ∧
      highaccMainExit missingRootEnv = 0) ∧
    (fileRootEnv.rootExists = true ∧ fileRootEnv.rootIsDir = false ∧
      fileRootEnv.toolsOk = true ∧ ocrMainExit fileRootEnv = 0) := by decide

/-- Claim C3 (amended): `ocr.py` exits 1 before anything is scheduled
exactly when the input root does not exist at all — a root existing as a
non-directory passes its `exists()` check, its enumeration is empty and the
run completes with exit 0; with the root existing and tools present it
exits 0 whenever the batch completes. `high_accuracy_ocr_pipeline.py.py`
checks only the tools: with tools present it always exits 0 — missing or
non-directory input root included — and it exits 1 when a required tool is
missing. -/
theorem startup_preconditions_amended (env : RunEnv) :
    (env.rootExists = false → ocrMainExit env = 1) ∧
    (env.rootExists = true → env.toolsOk = true → ocrMainExit env = 0) ∧
    (env.toolsOk = true → highaccMainExit env = 0) ∧
    (env.toolsOk = false → highaccMainExit env = 1) := by
  refine ⟨?_, ?_, ?_, ?_⟩
  · intro h
    unfold ocrMainExit
    rw [h]
    rfl
  · intro hroot htools
    unfold ocrMainExit
    rw [hroot, htools]
    simp only [Bool.true_eq_false, if_false]
    split <;> rfl
  · intro htools
    unfold highaccMainExit
    rw [htools]
    simp only [Bool.true_eq_false, if_false]
    split <;> rfl
  · intro htools
    unfold highaccMainExit
    rw [htools]
    rfl

/-- Witness for the amended C3: under `ocr.py`, a run with an existing
directory root and all tools present exits 0, the missing-root run exits 1,
and the root-is-a-regular-file run exits 0. -/
theorem startup_preconditions_amended_witness :
    ocrMainExit ⟨true, true, true, []⟩ = 0 ∧ ocrMainExit missingRootEnv = 1 ∧
      ocrMainExit fileRootEnv = 0 :=
  ⟨(startup_preconditions_amended ⟨true, true, true, []⟩).2.1 rfl rfl,
   (startup_preconditions_amended missingRootEnv).1 rfl,
   (startup_preconditions_amended fileRootEnv).2.1 rfl rfl⟩

/-- Claim C4: every token kept by the tokenizer has length at least 2 and
only word-class characters; purely numeric tokens are dropped before
classification; a report entry whose token holds both a digit and a letter
is the suggestion-free chemical-like entry; any suggestion entry carries at
most 5 suggestions and its token does not hold both a digit and a letter;
and the report lists exactly the unknown tokens, each once, in alphabetical
order. -/
theorem simple_spellcheck_spec (env : SpellEnv) (text : List Char)
    (customWords : List (List Char)) :
    (∀ w ∈ tokenize text, 2 ≤ w.length ∧ ∀ c ∈ w, isWordChar c = true) ∧
    (∀ w ∈ candidateTokens text, isPureNumeric w = false) ∧
    (∀ w, IssueEntry.chem w ∈ simple_spellcheck env text customWords →
      (hasDigit w && hasAsciiLetter w) = true) ∧
    (∀ e ∈ simple_spellcheck env text customWords,
      (hasDigit e.word && hasAsciiLetter e.word) = true → e = IssueEntry.chem e.word) ∧
    (∀ w suggestions,
      IssueEntry.withSuggestions w suggestions ∈ simple_spellcheck env text customWords →
      suggestions.length ≤ 5 ∧ (hasDigit w && hasAsciiLetter w) = false) ∧
    List.Sorted (· ≤ ·) ((simple_spellcheck env text customWords).map IssueEntry.word) ∧
    ((simple_spellcheck env text customWords).map IssueEntry.word).Nodup ∧
    (∀ w, w ∈ (simple_spellcheck env text customWords).map IssueEntry.word ↔
      w ∈ unknownTokens env text customWords) := by
  refine ⟨tokenizeAux_sound text [] (by simp), ?_, ?_, ?_, ?_, ?_, ?_, ?_⟩
  · intro w hw
    unfold candidateTokens at hw
    rcases List.mem_filter.mp (List.mem_dedup.mp hw) with ⟨-, hkeep⟩
    simpa using hkeep
  · intro w hw
    unfold simple_spellcheck at hw
    rcases List.mem_map.mp hw with ⟨w₀, -, hcls⟩
    unfold classifyToken at hcls
    split at hcls
    · cases hcls
      assumption
    · cases hcls
  · intro e he hcond
    unfold simple_spellcheck at he
    rcases List.mem_map.mp he with ⟨w₀, -, hcls⟩
    unfold classifyToken at hcls
    split at hcls
    · cases hcls
      rfl
    · cases hcls
      simp only [IssueEntry.word] at hcond
      simp_all
  · intro w suggestions hmem
    unfold simple_spellcheck at hmem
    rcases List.mem_map.mp hmem with ⟨w₀, -, hcls⟩
    unfold classifyToken at hcls
    split at hcls
    · cases hcls
    · cases hcls
      constructor
      · exact List.length_take_le 5 _
      · simp_all
  · rw [report_words_eq]
    exact List.sorted_insertionSort _ _
  · rw [report_words_eq]
    exact (List.perm_insertionSort _ _).symm.nodup (List.nodup_dedup _)
  · intro w
    rw [report_words_eq]
    exact List.mem_insertionSort _

/-- Witness for C4: over the text `"H2O 42 the"` with an empty custom
dictionary, `the` is among the reported unknown tokens. -/
theorem simple_spellcheck_spec_witness :
    ['t', 'h', 'e'] ∈
      (simple_spellcheck pyspellEnv ("H2O 42 the".toList) []).map IssueEntry.word :=
  ((simple_spellcheck_spec pyspellEnv ("H2O 42 the".toList) []).2.2.2.2.2.2.2
    ['t', 'h', 'e']).mpr (by decide)

/-- Claim C6: when OCR and extraction succeed but the docx export raises,
the `.txt` artifact exists, the `.docx` artifact does not, the spellcheck
stage still runs, and the outcome is a success carrying an Exporter warning
which the scheduler counts as succeeded. -/
theorem soft_failure_continuation (env : DocEnv) (e : String)
    (hocr : (ocr_to_searchable env.proc env.pdfPath env.searchablePath).1 = true)
    (hext : env.extractExc = none) (hdocx : env.docxExc = some e) :
    (process_pdf_file env).1.txt = true ∧
    (process_pdf_file env).1.docx = false ∧
    (process_pdf_file env).1.issues = env.spellExc.isNone ∧
    (∃ ws, (process_pdf_file env).2 = Outcome.success ws ∧ ("Exporter", e) ∈ ws) ∧
    futResult (Except.ok (process_pdf_file env)) = true := by
  cases hsp : env.spellExc with
  | none =>
    have hp : process_pdf_file env =
        (⟨true, true, false, true⟩, Outcome.success [("Exporter", e)]) := by
      simp [process_pdf_file, hocr, hext, hdocx, hsp]
    rw [hp]
    exact ⟨rfl, rfl, rfl, ⟨[("Exporter", e)], rfl, List.mem_singleton.mpr rfl⟩, rfl⟩
  | some e2 =>
    have hp : process_pdf_file env =
        (⟨true, true, false, false⟩,
          Outcome.success [("Exporter", e), ("Classifier", e2)]) := by
      simp [process_pdf_file, hocr, hext, hdocx, hsp]
    rw [hp]
    exact ⟨rfl, rfl, rfl,
      ⟨[("Exporter", e), ("Classifier", e2)], rfl, List.mem_cons_self _ _⟩, rfl⟩

/-- Witness for C6 at a concrete environment whose docx export raises. -/
theorem soft_failure_continuation_witness :
    (process_pdf_file docEnvDocxFail).1.txt = true ∧
      (process_pdf_file docEnvDocxFail).1.docx = false ∧
      futResult (Except.ok (process_pdf_file docEnvDocxFail)) = true :=
  ⟨(soft_failure_continuation docEnvDocxFail "docx blew up" rfl rfl rfl).1,
   (soft_failure_continuation docEnvDocxFail "docx blew up" rfl rfl rfl).2.1,
   (soft_failure_continuation docEnvDocxFail "docx blew up" rfl rfl rfl).2.2.2.2⟩

/-- Claim C7: the text extractor's output file equals, page for page, the
specification-side rendering where every page's content is preceded by the
delimiter line with its 1-based number and an empty page is rendered with
the `[NO TEXT ON PAGE]` sentinel line instead of being left blank or
omitted. -/
theorem extract_text_matches_spec (pages : List (List Char)) :
    extract_text_from_searchable pages = extractSpec pages := by
  unfold extract_text_from_searchable extractSpec
  rw [extract_go]
  rfl

/-- Claim C8 is contradicted by the code: the English-wordlist load at line
96 references a `filename` attribute that pyspellchecker's `WordFrequency`
does not have, the raised `AttributeError` is swallowed by the bare
`except`, so the dictionary holds only the custom words — with an empty
custom list the dictionary is empty and the common word `the` is written
into the issues report as suspicious instead of classifying as Known. -/
theorem the_is_reported_suspicious :
    buildDict pyspellEnv [] = [] ∧
      simple_spellcheck pyspellEnv ("the".toList) [] =
        [IssueEntry.withSuggestions ['t', 'h', 'e'] []] := by decide

/-- Claim C9 counterexample: the ocrmypdf invocation of `ocr.py`
`process_one` (one of the claim's cited call sites) carries none of the
claimed background-removal, clean, rotate-correction, resolution or
language options — so the claimed fixed option set does not hold for every
document's Normalizer invocation. -/
theorem ocrpy_lacks_claimed_options :
    "--remove-background" ∉ ocrPyArgs "in.pdf" "in_searchable.pdf" ∧
    "--clean" ∉ ocrPyArgs "in.pdf" "in_searchable.pdf" ∧
    "--clean-final" ∉ ocrPyArgs "in.pdf" "in_searchable.pdf" ∧
    "--rotate-pages" ∉ ocrPyArgs "in.pdf" "in_searchable.pdf" ∧
    "--image-dpi" ∉ ocrPyArgs "in.pdf" "in_searchable.pdf" ∧
    "400" ∉ ocrPyArgs "in.pdf" "in_searchable.pdf" ∧
    "-l" ∉ ocrPyArgs "in.pdf" "in_searchable.pdf" ∧
    "eng" ∉ ocrPyArgs "in.pdf" "in_searchable.pdf" := by decide

/-- Claim C9 (amended): in `high_accuracy_ocr_pipeline.py.py` the OCR
engine is invoked with the fixed option set — force OCR, deskew, background
removal, clean, rotate correction, 400 dpi, language `eng`; in `ocr.py` the
invocation passes only `--deskew` and `--force-ocr` besides the program
name and the two paths. In both scripts a non-zero exit code of the engine
makes the Normalizer stage a hard failure whose diagnostic is the captured
combined output. -/
theorem ocr_invocation_spec (pdfPath searchablePath : String) :
    "--force-ocr" ∈ ocrToSearchableArgs pdfPath searchablePath ∧
    "--deskew" ∈ ocrToSearchableArgs pdfPath searchablePath ∧
    "--remove-background" ∈ ocrToSearchableArgs pdfPath searchablePath ∧
    "--clean" ∈ ocrToSearchableArgs pdfPath searchablePath ∧
    "--rotate-pages" ∈ ocrToSearchableArgs pdfPath searchablePath ∧
    (["--image-dpi", "400"] <:+: ocrToSearchableArgs pdfPath searchablePath) ∧
    (["-l", "eng"] <:+: ocrToSearchableArgs pdfPath searchablePath) ∧
    (∀ (env : DocEnv) (code : Int) (outS errS : String),
      env.pdfPath = pdfPath → env.searchablePath = searchablePath →
      env.proc (ocrToSearchableArgs pdfPath searchablePath) =
        ProcResult.exited code outS errS →
      code ≠ 0 →
      (process_pdf_file env).2 = Outcome.failedHard "Normalizer" (outS ++ errS)) ∧
    "--deskew" ∈ ocrPyArgs pdfPath searchablePath ∧
    "--force-ocr" ∈ ocrPyArgs pdfPath searchablePath ∧
    (∀ flag ∈ ocrPyArgs pdfPath searchablePath,
      flag = "ocrmypdf" ∨ flag = "--deskew" ∨ flag = "--force-ocr" ∨
        flag = pdfPath ∨ flag = searchablePath) ∧
    (∀ (env : OcrPyEnv) (code : Int) (outS errS : String),
      env.pdfPath = pdfPath → env.searchablePath = searchablePath →
      env.proc (ocrPyArgs pdfPath searchablePath) =
        ProcResult.exited code outS errS →
      code ≠ 0 →
      process_one env = Outcome.failedHard "Normalizer" (outS ++ errS)) := by
  refine ⟨?_, ?_, ?_, ?_, ?_, ?_, ?_, ?_, ?_, ?_, ?_, ?_⟩
  · simp [ocrToSearchableArgs, OCRMYPDF_BASE_ARGS]
  · simp [ocrToSearchableArgs, OCRMYPDF_BASE_ARGS]
  · simp [ocrToSearchableArgs, OCRMYPDF_BASE_ARGS]
  · simp [ocrToSearchableArgs, OCRMYPDF_BASE_ARGS]
  · simp [ocrToSearchableArgs, OCRMYPDF_BASE_ARGS]
  · exact ⟨["ocrmypdf", "--force-ocr", "--deskew", "--remove-background", "--clean",
      "--clean-final", "--rotate-pages"], ["-l", "eng", pdfPath, searchablePath], rfl⟩
  · exact ⟨["ocrmypdf", "--force-ocr", "--deskew", "--remove-background", "--clean",
      "--clean-final", "--rotate-pages", "--image-dpi", "400"],
      [pdfPath, searchablePath], rfl⟩
  · intro env code outS errS hp hs hproc hcode
    have hbeq : (code == 0) = false := beq_eq_false_iff_ne.mpr hcode
    simp [process_pdf_file, ocr_to_searchable, hp, hs, hproc, runCmd, hbeq]
  · simp [ocrPyArgs]
  · simp [ocrPyArgs]
  · intro flag hmem
    simp only [ocrPyArgs, List.mem_cons, List.mem_singleton, List.not_mem_nil,
      or_false] at hmem
    tauto
  · intro env code outS errS hp hs hproc hcode
    have hbeq : (code == 0) = false := beq_eq_false_iff_ne.mpr hcode
    simp [process_one, hp, hs, hproc, runCmd, hbeq]

/-- Witness for the amended C9 at concrete environments whose engine
exits 1, one per script. -/
theorem ocr_invocation_spec_witness :
    "--deskew" ∈ ocrToSearchableArgs "in.pdf" "in_searchable.pdf" ∧
      (process_pdf_file docEnvOcrFail).2 =
        Outcome.failedHard "Normalizer" ("ocr says no" ++ "") ∧
      process_one ocrPyEnvFail =
        Outcome.failedHard "Normalizer" ("engine failed" ++ "") := by
  obtain ⟨-, h2, -, -, -, -, -, h8, -, -, -, h12⟩ :=
    ocr_invocation_spec "in.pdf" "in_searchable.pdf"
  exact ⟨h2, h8 docEnvOcrFail 1 "ocr says no" "" rfl rfl rfl (by decide),
    h12 ocrPyEnvFail 1 "engine failed" "" rfl rfl rfl (by decide)⟩

/-- Claim C10: the command runner is total at its interface — it returns
`(ok, diagnostic)` with `ok` true exactly when the process exited 0, the
diagnostic of a completed process is the captured combined stdout and
stderr, and an exception raised while invoking the process becomes
`(false, exception text)` instead of propagating. -/
theorem runCmd_total_interface (pr : ProcResult) :
    ((runCmd pr).1 = true ↔ ∃ outS errS, pr = ProcResult.exited 0 outS errS) ∧
    (∀ (code : Int) (outS errS : String), pr = ProcResult.exited code outS errS →
      runCmd pr = (code == 0, outS ++ errS)) ∧
    (∀ msg, pr = ProcResult.raised msg → runCmd pr = (false, msg)) := by
  refine ⟨?_, ?_, ?_⟩
  · cases pr with
    | exited code outS errS =>
      simp only [runCmd]
      constructor
      · intro h
        exact ⟨outS, errS, by rw [beq_iff_eq.mp h]⟩
      · rintro ⟨o, s, heq⟩
        cases heq
        rfl
    | raised msg =>
      simp only [runCmd]
      constructor
      · intro h
        cases h
      · rintro ⟨o, s, heq⟩
        cases heq
  · intro code outS errS h
    rw [h]
    rfl
  · intro msg h
    rw [h]
    rfl

/-- Witness for C10: a raised invocation and a zero-exit invocation at
concrete values. -/
theorem runCmd_total_interface_witness :
    runCmd (ProcResult.raised "no such file") = (false, "no such file") ∧
      (runCmd (ProcResult.exited 0 "out" "err")).1 = true :=
  ⟨(runCmd_total_interface (ProcResult.raised "no such file")).2.2 "no such file" rfl,
   (runCmd_total_interface (ProcResult.exited 0 "out" "err")).1.mpr ⟨"out", "err", rfl⟩⟩

end OcrPipeline
